import Mathlib

/-!
Shallow embedding of `donkeycar/parts/remote_controller.py`.

The two classes `RemoteController` (TCP) and `RemoteControllerUDP` are modelled
as Lean structures holding the mutable attributes set in `__init__`.  Python
floats are modelled as ℚ (the code only assigns, subtracts and compares them).
Socket handles are modelled by their observable state: `serverOpen` for the
listening socket, `client : Option Bool` for the peer socket (`some b` means
`self.client_socket` holds a socket, `b` = that socket is still open;
`none` means `self.client_socket is None`).

One iteration of an `update` loop body is a pure function of the state, the
current wall-clock time (`time.time()`), and the outcome the operating system
and network deliver during that iteration (accept result, recv result,
JSON-decode result).  `json.loads` on received bytes is modelled by the
iteration event carrying either `malformed` (a decode exception) or the decoded
Python value.
-/

namespace RemoteCtl

/-- Python values as produced by `json.loads`: numbers, strings, booleans,
`None`, arrays and objects (objects keep their key/value pairs in order;
`json.loads` keeps the last binding of a duplicated key, so lookup is
last-wins). -/
inductive PyVal where
  | num (q : ℚ)
  | str (s : String)
  | boolean (b : Bool)
  | null
  | arr (xs : List PyVal)
  | dict (fields : List (String × PyVal))

/-- Value of a digit string read in base 10. -/
def digitsVal (cs : List Char) : ℚ :=
  cs.foldl (fun a c => a * 10 + ((c.toNat - 48 : ℕ) : ℚ)) 0

/-- Value of the fractional digits after the decimal point. -/
def fracVal (cs : List Char) : ℚ :=
  digitsVal cs / 10 ^ cs.length

/-- Unsigned decimal literal: digits, optionally digits '.' digits with at
least one digit present overall. -/
def parseUnsigned (cs : List Char) : Option ℚ :=
  let intPart := cs.takeWhile Char.isDigit
  let rest := cs.dropWhile Char.isDigit
  match rest with
  | [] => if intPart.isEmpty then none else some (digitsVal intPart)
  | '.' :: frac =>
      if frac.all Char.isDigit && !(intPart.isEmpty && frac.isEmpty) then
        some (digitsVal intPart + fracVal frac)
      else none
  | _ => none

/-- Python `float(s)` on a string, restricted to plain decimal literals with an
optional sign and surrounding whitespace (exponent, `inf`, `nan` and
underscore forms are outside the model; they never occur in the claims). -/
def strToFloat (s : String) : Option ℚ :=
  match s.trim.toList with
  | '-' :: rest => (parseUnsigned rest).map Neg.neg
  | '+' :: rest => parseUnsigned rest
  | cs => parseUnsigned cs

/-- Python `float(x)`: `none` models the `TypeError`/`ValueError` raised when
`x` is not convertible (`None`, lists, dicts, non-numeric strings). -/
def pyFloat : PyVal → Option ℚ
  | .num q => some q
  | .boolean b => some (if b then 1 else 0)
  | .str s => strToFloat s
  | .null => none
  | .arr _ => none
  | .dict _ => none

/-- Lookup in a decoded JSON object; last binding wins, as in `json.loads`. -/
def dictGet (fields : List (String × PyVal)) (k : String) : Option PyVal :=
  ((fields.filter (fun p => p.1 == k)).getLast?).map (fun p => p.2)

/-- Python `cmd.get(k, d)` on a dict. -/
def pyGet (fields : List (String × PyVal)) (k : String) (d : PyVal) : PyVal :=
  (dictGet fields k).getD d

/-- Effect of the parse lines

    self.steering = float(cmd.get('steering', 0.0))
    self.throttle = float(cmd.get('throttle', 0.0))
    self.last_command_time = time.time()

on the triple (steering, throttle, last_command_time): the assignments run in
order and an exception (non-dict `cmd`, unconvertible field) aborts the rest,
leaving the later fields at their old values. -/
def applyCmdVals (v : PyVal) (now st th tm : ℚ) : ℚ × ℚ × ℚ :=
  match v with
  | .dict fs =>
      match pyFloat (pyGet fs "steering" (.num 0)) with
      | none => (st, th, tm)
      | some a =>
          match pyFloat (pyGet fs "throttle" (.num 0)) with
          | none => (a, th, tm)
          | some b => (a, b, now)
  | _ => (st, th, tm)

/-- Outcome of `json.loads(data.decode('utf-8'))` for a nonempty chunk. -/
inductive DecodeOutcome where
  | malformed
  | ok (v : PyVal)

/-- Outcome of `self.server_socket.accept()` in one loop iteration. -/
inductive AcceptResult where
  | success
  | timedOut
  | acceptErr

/-- Outcome of `self.client_socket.recv(1024)` in one loop iteration:
`closed` = empty bytes (peer closed), `data` = nonempty chunk with its decode
outcome, `timedOut` = `socket.timeout`, `connReset` = `ConnectionResetError`
or `BrokenPipeError`, `recvErr` = any other exception. -/
inductive RecvResult where
  | closed
  | data (d : DecodeOutcome)
  | timedOut
  | connReset
  | recvErr

/-- State of a `RemoteController` (TCP) instance. -/
structure RemoteController where
  host : String
  port : ℕ
  running : Bool
  steering : ℚ
  throttle : ℚ
  last_command_time : ℚ
  timeout : ℚ
  serverOpen : Bool
  client : Option Bool

/-- `RemoteController.__init__(host, port)`, with `t0` the value of
`time.time()` at construction. -/
def RemoteController.init (host : String) (port : ℕ) (t0 : ℚ) : RemoteController :=
  { host := host
    port := port
    running := true
    steering := 0
    throttle := 0
    last_command_time := t0
    timeout := 1/2
    serverOpen := true
    client := none }

/-- The receive part of one TCP loop iteration (the `try: recv ...` block),
run when a client socket is held. -/
def tcpRecvStep (s : RemoteController) (now : ℚ) (r : RecvResult) : RemoteController :=
  match r with
  | .closed => { s with client := none, steering := 0, throttle := 0 }
  | .timedOut => s
  | .connReset => { s with client := none, steering := 0, throttle := 0 }
  | .recvErr => s
  | .data .malformed => s
  | .data (.ok v) =>
      let t := applyCmdVals v now s.steering s.throttle s.last_command_time
      { s with steering := t.1, throttle := t.2.1, last_command_time := t.2.2 }

/-- One full iteration of `RemoteController.update`'s `while` body: when no
client is held, the accept result decides whether the iteration `continue`s or
proceeds, with the fresh socket, to the receive block. -/
def tcpStep (s : RemoteController) (now : ℚ) (a : AcceptResult) (r : RecvResult) :
    RemoteController :=
  match s.client with
  | some _ => tcpRecvStep s now r
  | none =>
      match a with
      | .timedOut => s
      | .acceptErr => s
      | .success => tcpRecvStep { s with client := some true } now r

/-- The `while self.running` loop of `RemoteController.update`, driven by a
finite schedule of iteration events. -/
def tcpLoop (s : RemoteController) :
    List (ℚ × AcceptResult × RecvResult) → RemoteController
  | [] => s
  | e :: rest =>
      if s.running then tcpLoop (tcpStep s e.1 e.2.1 e.2.2) rest else s

/-- `RemoteController.run_threaded`. -/
def RemoteController.runThreaded (s : RemoteController) (now : ℚ) : ℚ × ℚ :=
  if now - s.last_command_time > s.timeout then (0, 0)
  else (s.steering, s.throttle)

/-- `RemoteController.run` (the non-threaded version calls `run_threaded`). -/
def RemoteController.run (s : RemoteController) (now : ℚ) : ℚ × ℚ :=
  s.runThreaded now

/-- `RemoteController.shutdown`: clears the running flag, zeroes the command,
closes the client socket when one is held (`if self.client_socket:`), and
closes the server socket. -/
def RemoteController.shutdown (s : RemoteController) : RemoteController :=
  { s with running := false
           steering := 0
           throttle := 0
           client := s.client.map (fun _ => false)
           serverOpen := false }

/-- Outcome of `self.socket.recvfrom(1024)` in one UDP loop iteration. -/
inductive UDPRecvResult where
  | data (d : DecodeOutcome)
  | timedOut
  | recvErr

/-- State of a `RemoteControllerUDP` instance. -/
structure RemoteControllerUDP where
  host : String
  port : ℕ
  running : Bool
  steering : ℚ
  throttle : ℚ
  last_command_time : ℚ
  timeout : ℚ
  socketOpen : Bool

/-- `RemoteControllerUDP.__init__(host, port)`. -/
def RemoteControllerUDP.init (host : String) (port : ℕ) (t0 : ℚ) : RemoteControllerUDP :=
  { host := host
    port := port
    running := true
    steering := 0
    throttle := 0
    last_command_time := t0
    timeout := 1/2
    socketOpen := true }

/-- One iteration of `RemoteControllerUDP.update`'s `while` body. -/
def udpStep (s : RemoteControllerUDP) (now : ℚ) (r : UDPRecvResult) :
    RemoteControllerUDP :=
  match r with
  | .timedOut => s
  | .recvErr => s
  | .data .malformed => s
  | .data (.ok v) =>
      let t := applyCmdVals v now s.steering s.throttle s.last_command_time
      { s with steering := t.1, throttle := t.2.1, last_command_time := t.2.2 }

/-- The `while self.running` loop of `RemoteControllerUDP.update`. -/
def udpLoop (s : RemoteControllerUDP) :
    List (ℚ × UDPRecvResult) → RemoteControllerUDP
  | [] => s
  | e :: rest => if s.running then udpLoop (udpStep s e.1 e.2) rest else s

/-- `RemoteControllerUDP.run_threaded`. -/
def RemoteControllerUDP.runThreaded (s : RemoteControllerUDP) (now : ℚ) : ℚ × ℚ :=
  if now - s.last_command_time > s.timeout then (0, 0)
  else (s.steering, s.throttle)

/-- `RemoteControllerUDP.run`. -/
def RemoteControllerUDP.run (s : RemoteControllerUDP) (now : ℚ) : ℚ × ℚ :=
  s.runThreaded now

/-- `RemoteControllerUDP.shutdown`. -/
def RemoteControllerUDP.shutdown (s : RemoteControllerUDP) : RemoteControllerUDP :=
  { s with running := false
           steering := 0
           throttle := 0
           socketOpen := false }

/-- A decode outcome counts as a successfully parsed command exactly when all
three assignment lines of the parse block complete: the value is a dict and
both `float(...)` conversions succeed. -/
def cmdParsed : DecodeOutcome → Bool
  | .malformed => false
  | .ok v =>
      match v with
      | .dict fs =>
          (pyFloat (pyGet fs "steering" (.num 0))).isSome &&
          (pyFloat (pyGet fs "throttle" (.num 0))).isSome
      | _ => false

/-- A TCP recv outcome that carries a successfully parsed command. -/
def recvParsed : RecvResult → Bool
  | .data d => cmdParsed d
  | _ => false

/-- A UDP recv outcome that carries a successfully parsed command. -/
def udpRecvParsed : UDPRecvResult → Bool
  | .data d => cmdParsed d
  | _ => false

/-- Whether the receive block of a TCP iteration runs at all: either a client
socket is already held, or the accept call succeeds in this iteration. -/
def recvReached (s : RemoteController) (a : AcceptResult) : Bool :=
  s.client.isSome ||
    (match a with
     | .success => true
     | _ => false)

/-- A concrete TCP receiver state with a connected peer and a nonzero stored
command, used to instantiate the universally quantified theorems. -/
def sampleConn : RemoteController :=
  { host := "0.0.0.0"
    port := 5001
    running := true
    steering := 2
    throttle := 3
    last_command_time := 0
    timeout := 1/2
    serverOpen := true
    client := some true }

/-- A concrete UDP receiver state with a nonzero stored command. -/
def sampleUDP : RemoteControllerUDP :=
  { host := "0.0.0.0"
    port := 5001
    running := true
    steering := 2
    throttle := 3
    last_command_time := 0
    timeout := 1/2
    socketOpen := true }

/-- A concrete well-formed command payload. -/
def goodCmd : PyVal :=
  .dict [("steering", .num (1/2)), ("throttle", .num (3/10))]

/-- A concrete payload that is valid JSON but has a non-numeric `throttle`
field: `{"steering": 1, "throttle": null}`. -/
def mixedCmd : PyVal :=
  .dict [("steering", .num 1), ("throttle", .null)]

/-! Theorems about the embedding, one per claim of the specification. -/

/-- Every branch of the TCP receive block leaves the `timeout` attribute
unchanged. -/
theorem tcpRecvStep_timeout (s : RemoteController) (now : ℚ) (r : RecvResult) :
    (tcpRecvStep s now r).timeout = s.timeout := by
  cases r with
  | data d => cases d <;> rfl
  | closed => rfl
  | timedOut => rfl
  | connReset => rfl
  | recvErr => rfl

/-- Every branch of the TCP receive block leaves the `running` flag
unchanged. -/
theorem tcpRecvStep_running (s : RemoteController) (now : ℚ) (r : RecvResult) :
    (tcpRecvStep s now r).running = s.running := by
  cases r with
  | data d => cases d <;> rfl
  | closed => rfl
  | timedOut => rfl
  | connReset => rfl
  | recvErr => rfl

/-- A full TCP loop iteration leaves the `timeout` attribute unchanged. -/
theorem tcpStep_timeout (s : RemoteController) (now : ℚ) (a : AcceptResult)
    (r : RecvResult) : (tcpStep s now a r).timeout = s.timeout := by
  unfold tcpStep
  cases s.client with
  | some b => exact tcpRecvStep_timeout s now r
  | none =>
      cases a with
      | success => exact tcpRecvStep_timeout { s with client := some true } now r
      | timedOut => rfl
      | acceptErr => rfl

/-- A full TCP loop iteration leaves the `running` flag unchanged. -/
theorem tcpStep_running (s : RemoteController) (now : ℚ) (a : AcceptResult)
    (r : RecvResult) : (tcpStep s now a r).running = s.running := by
  unfold tcpStep
  cases s.client with
  | some b => exact tcpRecvStep_running s now r
  | none =>
      cases a with
      | success => exact tcpRecvStep_running { s with client := some true } now r
      | timedOut => rfl
      | acceptErr => rfl

/-- Every branch of the UDP loop iteration leaves the `timeout` attribute
unchanged. -/
theorem udpStep_timeout (u : RemoteControllerUDP) (now : ℚ) (r : UDPRecvResult) :
    (udpStep u now r).timeout = u.timeout := by
  cases r with
  | data d => cases d <;> rfl
  | timedOut => rfl
  | recvErr => rfl

/-- Every branch of the UDP loop iteration leaves the `running` flag
unchanged. -/
theorem udpStep_running (u : RemoteControllerUDP) (now : ℚ) (r : UDPRecvResult) :
    (udpStep u now r).running = u.running := by
  cases r with
  | data d => cases d <;> rfl
  | timedOut => rfl
  | recvErr => rfl

/-- The parse block assigns `last_command_time := now` exactly when the whole
parse succeeds, and leaves it at its old value otherwise. -/
theorem applyCmdVals_time (v : PyVal) (now st th tm : ℚ) :
    (applyCmdVals v now st th tm).2.2 = if cmdParsed (.ok v) then now else tm := by
  cases v with
  | dict fs =>
      unfold applyCmdVals cmdParsed
      cases h1 : pyFloat (pyGet fs "steering" (.num 0)) with
      | none => simp [h1]
      | some a =>
          cases h2 : pyFloat (pyGet fs "throttle" (.num 0)) with
          | none => simp [h1, h2]
          | some b => simp [h1, h2]
  | num q => rfl
  | str t => rfl
  | boolean b => rfl
  | null => rfl
  | arr xs => rfl

/-- The TCP receive block updates `last_command_time` to `now` exactly on a
successfully parsed command, never on timeout, disconnect, decode failure or
transport error. -/
theorem tcpRecvStep_time (s : RemoteController) (now : ℚ) (r : RecvResult) :
    (tcpRecvStep s now r).last_command_time =
      if recvParsed r then now else s.last_command_time := by
  cases r with
  | data d =>
      cases d with
      | malformed => rfl
      | ok v => exact applyCmdVals_time v now s.steering s.throttle s.last_command_time
  | closed => rfl
  | timedOut => rfl
  | connReset => rfl
  | recvErr => rfl

/-- A full TCP iteration updates `last_command_time` to `now` exactly when the
receive block runs and the received chunk parses as a command. -/
theorem tcpStep_time (s : RemoteController) (now : ℚ) (a : AcceptResult)
    (r : RecvResult) :
    (tcpStep s now a r).last_command_time =
      if recvReached s a && recvParsed r then now else s.last_command_time := by
  unfold tcpStep
  cases hcl : s.client with
  | some b =>
      rw [tcpRecvStep_time]
      simp [recvReached, hcl]
  | none =>
      cases a with
      | success =>
          rw [tcpRecvStep_time]
          simp [recvReached, hcl]
      | timedOut => simp [recvReached, hcl]
      | acceptErr => simp [recvReached, hcl]

/-- A UDP iteration updates `last_command_time` to `now` exactly on a
successfully parsed datagram. -/
theorem udpStep_time (u : RemoteControllerUDP) (now : ℚ) (r : UDPRecvResult) :
    (udpStep u now r).last_command_time =
      if udpRecvParsed r then now else u.last_command_time := by
  cases r with
  | data d =>
      cases d with
      | malformed => rfl
      | ok v => exact applyCmdVals_time v now u.steering u.throttle u.last_command_time
  | timedOut => rfl
  | recvErr => rfl

/-- Unfolding equation of `tcpLoop` on a nonempty schedule. -/
theorem tcpLoop_cons (s : RemoteController) (e : ℚ × AcceptResult × RecvResult)
    (rest : List (ℚ × AcceptResult × RecvResult)) :
    tcpLoop s (e :: rest) =
      if s.running then tcpLoop (tcpStep s e.1 e.2.1 e.2.2) rest else s := rfl

/-- Unfolding equation of `udpLoop` on a nonempty schedule. -/
theorem udpLoop_cons (u : RemoteControllerUDP) (e : ℚ × UDPRecvResult)
    (rest : List (ℚ × UDPRecvResult)) :
    udpLoop u (e :: rest) =
      if u.running then udpLoop (udpStep u e.1 e.2) rest else u := rfl

/-- While `running` is true the TCP loop consumes its whole schedule (it equals
a fold of `tcpStep`) and `running` stays true. -/
theorem tcpLoop_runs (s : RemoteController)
    (evs : List (ℚ × AcceptResult × RecvResult)) (hs : s.running = true) :
    tcpLoop s evs = evs.foldl (fun t e => tcpStep t e.1 e.2.1 e.2.2) s ∧
    (tcpLoop s evs).running = true := by
  induction evs generalizing s with
  | nil => exact ⟨rfl, hs⟩
  | cons e rest ih =>
      have hstep : (tcpStep s e.1 e.2.1 e.2.2).running = true := by
        rw [tcpStep_running]; exact hs
      have h := ih (tcpStep s e.1 e.2.1 e.2.2) hstep
      rw [tcpLoop_cons, hs, if_pos rfl, List.foldl_cons]
      exact h

/-- While `running` is true the UDP loop consumes its whole schedule and
`running` stays true. -/
theorem udpLoop_runs (u : RemoteControllerUDP)
    (evs : List (ℚ × UDPRecvResult)) (hu : u.running = true) :
    udpLoop u evs = evs.foldl (fun t e => udpStep t e.1 e.2) u ∧
    (udpLoop u evs).running = true := by
  induction evs generalizing u with
  | nil => exact ⟨rfl, hu⟩
  | cons e rest ih =>
      have hstep : (udpStep u e.1 e.2).running = true := by
        rw [udpStep_running]; exact hu
      have h := ih (udpStep u e.1 e.2) hstep
      rw [udpLoop_cons, hu, if_pos rfl, List.foldl_cons]
      exact h

/-- Looking a key up in a decoded JSON object ignores bindings of other
keys. -/
theorem dictGet_cons_ne (k kx : String) (w : PyVal) (fs : List (String × PyVal))
    (h : k ≠ kx) : dictGet ((k, w) :: fs) kx = dictGet fs kx := by
  unfold dictGet
  rw [List.filter_cons]
  simp [h]

/-- Claim C1: for either receiver with the watchdog threshold fixed at 0.5s,
`run_threaded` at time `now` returns the stored (steering, throttle) pair when
`now - last_command_time ≤ 0.5`, and the neutral pair (0.0, 0.0) when
`now - last_command_time > 0.5`. -/
theorem c1_watchdog_freshness (s : RemoteController) (u : RemoteControllerUDP)
    (now : ℚ) (hs : s.timeout = 1/2) (hu : u.timeout = 1/2) :
    (now - s.last_command_time ≤ 1/2 → s.runThreaded now = (s.steering, s.throttle)) ∧
    (now - s.last_command_time > 1/2 → s.runThreaded now = (0, 0)) ∧
    (now - u.last_command_time ≤ 1/2 → u.runThreaded now = (u.steering, u.throttle)) ∧
    (now - u.last_command_time > 1/2 → u.runThreaded now = (0, 0)) := by
  refine ⟨fun h => ?_, fun h => ?_, fun h => ?_, fun h => ?_⟩ <;>
    simp only [RemoteController.runThreaded, RemoteControllerUDP.runThreaded, hs, hu]
  · rw [if_neg (not_lt.mpr h)]
  · rw [if_pos h]
  · rw [if_neg (not_lt.mpr h)]
  · rw [if_pos h]

/-- Witness for C1 at a concrete state: a freshly constructed TCP receiver
(command time 0) polled at time 1/4 returns its stored pair, and polled at
time 1 returns neutral. -/
theorem c1_watchdog_freshness_witness :
    (RemoteController.init "0.0.0.0" 5001 0).runThreaded (1/4) =
      ((RemoteController.init "0.0.0.0" 5001 0).steering,
       (RemoteController.init "0.0.0.0" 5001 0).throttle) ∧
    (RemoteController.init "0.0.0.0" 5001 0).runThreaded 1 = (0, 0) := by
  constructor
  · exact (c1_watchdog_freshness (RemoteController.init "0.0.0.0" 5001 0)
      (RemoteControllerUDP.init "0.0.0.0" 5001 0) (1/4) rfl rfl).1 (by norm_num [RemoteController.init])
  · exact (c1_watchdog_freshness (RemoteController.init "0.0.0.0" 5001 0)
      (RemoteControllerUDP.init "0.0.0.0" 5001 0) 1 rfl rfl).2.1 (by norm_num [RemoteController.init])

/-- Claim C10: `shutdown()` itself resets steering and throttle to 0.0 in both
receivers, so every later `run_threaded` call returns (0.0, 0.0) at every time
`now`, whether or not the watchdog threshold has elapsed. -/
theorem c10_shutdown_neutral (s : RemoteController) (u : RemoteControllerUDP) (now : ℚ) :
    s.shutdown.steering = 0 ∧ s.shutdown.throttle = 0 ∧
    u.shutdown.steering = 0 ∧ u.shutdown.throttle = 0 ∧
    s.shutdown.runThreaded now = (0, 0) ∧
    u.shutdown.runThreaded now = (0, 0) := by
  refine ⟨rfl, rfl, rfl, rfl, ?_, ?_⟩ <;>
    · simp only [RemoteController.shutdown, RemoteControllerUDP.shutdown,
        RemoteController.runThreaded, RemoteControllerUDP.runThreaded]
      split <;> rfl

/-- Claim C2 counterexample: the payload `{"steering": 1, "throttle": null}`
is a valid JSON object with a non-numeric field, yet one TCP loop iteration
that receives it changes the stored steering from 2 to 1 while throttle and
last_command_time keep their old values — a partial mutation, contradicting
the claim that such a payload leaves steering, throttle and last_command_time
exactly as they were. -/
theorem c2_counterexample :
    (tcpStep sampleConn 7 .timedOut (.data (.ok mixedCmd))).steering = 1 ∧
    sampleConn.steering = 2 ∧
    (tcpStep sampleConn 7 .timedOut (.data (.ok mixedCmd))).throttle = 3 ∧
    (tcpStep sampleConn 7 .timedOut (.data (.ok mixedCmd))).last_command_time = 0 :=
  ⟨rfl, rfl, rfl, rfl⟩

/-- Claim C2 (amended): a malformed payload (JSON decode failure) leaves the
stored steering, throttle and last_command_time exactly as they were and the
worker does not crash (the running flag is preserved on every receive
outcome).  A payload that decodes to valid JSON but has a non-convertible
field raises a different exception (not a decode error); it is still caught at
the iteration boundary, but it may partially mutate state: when the steering
field converts to `q` and the throttle field does not convert, steering is set
to `q` while throttle and last_command_time keep their old values. -/
theorem c2_parse_isolation (s : RemoteController) (u : RemoteControllerUDP)
    (now : ℚ) (a : AcceptResult) (fs : List (String × PyVal)) (q : ℚ) (b : Bool)
    (hc : s.client = some b)
    (h1 : pyFloat (pyGet fs "steering" (.num 0)) = some q)
    (h2 : pyFloat (pyGet fs "throttle" (.num 0)) = none) :
    tcpStep s now a (.data .malformed) = s ∧
    udpStep u now (.data .malformed) = u ∧
    tcpStep s now a (.data (.ok (.dict fs))) = { s with steering := q } ∧
    udpStep u now (.data (.ok (.dict fs))) = { u with steering := q } ∧
    (∀ r, (tcpStep s now a r).running = s.running) ∧
    (∀ r, (udpStep u now r).running = u.running) := by
  have hstep : ∀ rr, tcpStep s now a rr = tcpRecvStep s now rr := by
    intro rr; unfold tcpStep; rw [hc]
  have ht : applyCmdVals (.dict fs) now s.steering s.throttle s.last_command_time
      = (q, s.throttle, s.last_command_time) := by
    simp only [applyCmdVals, h1, h2]
  have hu : applyCmdVals (.dict fs) now u.steering u.throttle u.last_command_time
      = (q, u.throttle, u.last_command_time) := by
    simp only [applyCmdVals, h1, h2]
  refine ⟨(hstep _).trans rfl, rfl, ?_, ?_,
    fun r => tcpStep_running s now a r, fun r => udpStep_running u now r⟩
  · rw [hstep]
    show { s with
        steering := (applyCmdVals (.dict fs) now s.steering s.throttle s.last_command_time).1
        throttle := (applyCmdVals (.dict fs) now s.steering s.throttle s.last_command_time).2.1
        last_command_time :=
          (applyCmdVals (.dict fs) now s.steering s.throttle s.last_command_time).2.2 }
      = { s with steering := q }
    rw [ht]
  · show { u with
        steering := (applyCmdVals (.dict fs) now u.steering u.throttle u.last_command_time).1
        throttle := (applyCmdVals (.dict fs) now u.steering u.throttle u.last_command_time).2.1
        last_command_time :=
          (applyCmdVals (.dict fs) now u.steering u.throttle u.last_command_time).2.2 }
      = { u with steering := q }
    rw [hu]

/-- Witness for the amended C2 at the concrete mixed payload
`{"steering": 1, "throttle": null}` and concrete connected states. -/
theorem c2_parse_isolation_witness :
    tcpStep sampleConn 7 .timedOut (.data .malformed) = sampleConn ∧
    udpStep sampleUDP 7 (.data .malformed) = sampleUDP ∧
    tcpStep sampleConn 7 .timedOut (.data (.ok mixedCmd)) =
      { sampleConn with steering := 1 } ∧
    udpStep sampleUDP 7 (.data (.ok mixedCmd)) = { sampleUDP with steering := 1 } ∧
    (∀ r, (tcpStep sampleConn 7 .timedOut r).running = sampleConn.running) ∧
    (∀ r, (udpStep sampleUDP 7 r).running = sampleUDP.running) :=
  c2_parse_isolation sampleConn sampleUDP 7 .timedOut
    [("steering", .num 1), ("throttle", .null)] 1 true rfl rfl rfl

/-- Claim C3: in the TCP receiver a zero-length read and a connection
reset/broken pipe are handled identically: the peer handle is dropped, the
stored command is reset to neutral immediately, and the next `run_threaded`
call returns (0.0, 0.0) at any time, regardless of the watchdog threshold or
how recently the last command arrived. -/
theorem c3_disconnect_resets (s : RemoteController) (now t : ℚ)
    (a : AcceptResult) (b : Bool) (hc : s.client = some b) :
    tcpStep s now a .closed = tcpStep s now a .connReset ∧
    (tcpStep s now a .closed).client = none ∧
    (tcpStep s now a .closed).steering = 0 ∧
    (tcpStep s now a .closed).throttle = 0 ∧
    (tcpStep s now a .closed).runThreaded t = (0, 0) := by
  have hstep : ∀ rr, tcpStep s now a rr = tcpRecvStep s now rr := by
    intro rr; unfold tcpStep; rw [hc]
  rw [hstep, hstep]
  refine ⟨rfl, rfl, rfl, rfl, ?_⟩
  simp only [tcpRecvStep, RemoteController.runThreaded]
  split <;> rfl

/-- Witness for C3 at a concrete connected state polled immediately after the
disconnect (time 0, well inside the threshold). -/
theorem c3_disconnect_resets_witness :
    tcpStep sampleConn 0 .timedOut .closed = tcpStep sampleConn 0 .timedOut .connReset ∧
    (tcpStep sampleConn 0 .timedOut .closed).client = none ∧
    (tcpStep sampleConn 0 .timedOut .closed).steering = 0 ∧
    (tcpStep sampleConn 0 .timedOut .closed).throttle = 0 ∧
    (tcpStep sampleConn 0 .timedOut .closed).runThreaded 0 = (0, 0) :=
  c3_disconnect_resets sampleConn 0 0 .timedOut true rfl

/-- Claim C4: across an iteration of either receive loop (run at a time `now`
not earlier than the stored receipt time, as wall-clock time is
non-decreasing), `last_command_time` is monotonically non-decreasing, and it
is set to `now` exactly when a command is successfully parsed in that
iteration — never on a parse failure, a receive timeout, or a peer
disconnect. -/
theorem c4_receipt_time_monotone (s : RemoteController) (u : RemoteControllerUDP)
    (now : ℚ) (a : AcceptResult) (r : RecvResult) (ru : UDPRecvResult)
    (hs : s.last_command_time ≤ now) (hu : u.last_command_time ≤ now) :
    (tcpStep s now a r).last_command_time =
      (if recvReached s a && recvParsed r then now else s.last_command_time) ∧
    s.last_command_time ≤ (tcpStep s now a r).last_command_time ∧
    (udpStep u now ru).last_command_time =
      (if udpRecvParsed ru then now else u.last_command_time) ∧
    u.last_command_time ≤ (udpStep u now ru).last_command_time := by
  refine ⟨tcpStep_time s now a r, ?_, udpStep_time u now ru, ?_⟩
  · rw [tcpStep_time]
    split
    · exact hs
    · exact le_refl _
  · rw [udpStep_time]
    split
    · exact hu
    · exact le_refl _

/-- Witness for C4: a successfully parsed command at time 5 on the concrete
connected state stamps `last_command_time` with 5, and the time never
decreases. -/
theorem c4_receipt_time_monotone_witness :
    (tcpStep sampleConn 5 .timedOut (.data (.ok goodCmd))).last_command_time =
      (if recvReached sampleConn .timedOut && recvParsed (.data (.ok goodCmd))
       then (5 : ℚ) else sampleConn.last_command_time) ∧
    sampleConn.last_command_time ≤
      (tcpStep sampleConn 5 .timedOut (.data (.ok goodCmd))).last_command_time ∧
    (udpStep sampleUDP 5 (.data (.ok goodCmd))).last_command_time =
      (if udpRecvParsed (.data (.ok goodCmd))
       then (5 : ℚ) else sampleUDP.last_command_time) ∧
    sampleUDP.last_command_time ≤
      (udpStep sampleUDP 5 (.data (.ok goodCmd))).last_command_time :=
  c4_receipt_time_monotone sampleConn sampleUDP 5 .timedOut
    (.data (.ok goodCmd)) (.data (.ok goodCmd))
    (by show (0 : ℚ) ≤ 5; norm_num) (by show (0 : ℚ) ≤ 5; norm_num)

/-- Claim C5: after `shutdown()` the running flag is false (so the worker loop
exits at its next iteration check, i.e. it processes no further events), and
every held socket is released on every exit path: for TCP the server socket is
closed, a held client socket is closed, and when no peer is connected only the
listening socket is involved (the client slot stays empty); for UDP the bound
socket is closed. -/
theorem c5_shutdown_release (s : RemoteController) (u : RemoteControllerUDP)
    (evs : List (ℚ × AcceptResult × RecvResult)) (evsU : List (ℚ × UDPRecvResult)) :
    s.shutdown.running = false ∧
    s.shutdown.serverOpen = false ∧
    (∀ b, s.shutdown.client = some b → b = false) ∧
    (s.client = none → s.shutdown.client = none) ∧
    tcpLoop s.shutdown evs = s.shutdown ∧
    u.shutdown.running = false ∧
    u.shutdown.socketOpen = false ∧
    udpLoop u.shutdown evsU = u.shutdown := by
  refine ⟨rfl, rfl, ?_, ?_, ?_, rfl, rfl, ?_⟩
  · intro b hb
    have h : Option.map (fun _ => false) s.client = some b := hb
    cases hcl : s.client with
    | none => rw [hcl] at h; exact absurd h (by simp)
    | some c => rw [hcl] at h; exact (Option.some.inj h).symm
  · intro h
    show Option.map (fun _ => false) s.client = none
    rw [h]
    rfl
  · cases evs with
    | nil => rfl
    | cons e rest => rfl
  · cases evsU with
    | nil => rfl
    | cons e rest => rfl

/-- Witness for C5 at the concrete connected TCP state and the concrete UDP
state, with a nonempty schedule that the stopped loops refuse to process. -/
theorem c5_shutdown_release_witness :
    sampleConn.shutdown.running = false ∧
    sampleConn.shutdown.serverOpen = false ∧
    sampleConn.shutdown.client = some false ∧
    tcpLoop sampleConn.shutdown [(9, .success, .timedOut)] = sampleConn.shutdown ∧
    sampleUDP.shutdown.running = false ∧
    sampleUDP.shutdown.socketOpen = false ∧
    udpLoop sampleUDP.shutdown [(9, .timedOut)] = sampleUDP.shutdown := by
  have h := c5_shutdown_release sampleConn sampleUDP
    [(9, .success, .timedOut)] [(9, .timedOut)]
  exact ⟨h.1, h.2.1, rfl, h.2.2.2.2.1, h.2.2.2.2.2.1, h.2.2.2.2.2.2.1, h.2.2.2.2.2.2.2⟩

/-- Claim C6: at most one peer is active at a time in the TCP receiver.  While
a client socket is held the iteration does not consult the accept call (its
result is the same for every accept outcome) and the client slot afterwards is
either the same peer or empty; an accept is attempted exactly when no client
is held: there a timed-out or failed accept leaves the state unchanged, and a
successful accept installs the new peer. -/
theorem c6_single_peer (s : RemoteController) (now : ℚ) (a a' : AcceptResult)
    (r : RecvResult) (b : Bool) (hc : s.client = some b) :
    tcpStep s now a r = tcpStep s now a' r ∧
    ((tcpStep s now a r).client = some b ∨ (tcpStep s now a r).client = none) ∧
    (∀ t : RemoteController, t.client = none →
      tcpStep t now .timedOut r = t ∧
      tcpStep t now .acceptErr r = t ∧
      (tcpStep t now .success .timedOut).client = some true) := by
  have hstep : ∀ (x : AcceptResult) (rr : RecvResult),
      tcpStep s now x rr = tcpRecvStep s now rr := by
    intro x rr; unfold tcpStep; rw [hc]
  refine ⟨(hstep a r).trans (hstep a' r).symm, ?_, ?_⟩
  · rw [hstep]
    cases r with
    | closed => exact Or.inr rfl
    | connReset => exact Or.inr rfl
    | timedOut => exact Or.inl hc
    | recvErr => exact Or.inl hc
    | data d =>
        cases d with
        | malformed => exact Or.inl hc
        | ok v => exact Or.inl hc
  · intro t ht
    refine ⟨?_, ?_, ?_⟩
    · unfold tcpStep; rw [ht]
    · unfold tcpStep; rw [ht]
    · unfold tcpStep; rw [ht]; rfl

/-- Witness for C6 at the concrete connected state: the iteration result is
independent of the accept outcome. -/
theorem c6_single_peer_witness :
    tcpStep sampleConn 4 .success .timedOut = tcpStep sampleConn 4 .acceptErr .timedOut ∧
    ((tcpStep sampleConn 4 .success .timedOut).client = some true ∨
     (tcpStep sampleConn 4 .success .timedOut).client = none) :=
  have h := c6_single_peer sampleConn 4 .success .acceptErr .timedOut true rfl
  ⟨h.1, h.2.1⟩

/-- Claim C7: for both receivers the watchdog threshold is the fixed value 0.5
set at construction, next to the bind host and port, and no operation of the
model changes it: `update` iterations and `shutdown` preserve it, and
`run_threaded` and `run` are read-only functions of the state by
construction. -/
theorem c7_threshold_fixed (host : String) (port : ℕ) (t0 now : ℚ)
    (s : RemoteController) (u : RemoteControllerUDP) (a : AcceptResult)
    (r : RecvResult) (ru : UDPRecvResult) :
    (RemoteController.init host port t0).timeout = 1/2 ∧
    (RemoteController.init host port t0).host = host ∧
    (RemoteController.init host port t0).port = port ∧
    (RemoteControllerUDP.init host port t0).timeout = 1/2 ∧
    (RemoteControllerUDP.init host port t0).host = host ∧
    (RemoteControllerUDP.init host port t0).port = port ∧
    (tcpStep s now a r).timeout = s.timeout ∧
    s.shutdown.timeout = s.timeout ∧
    (udpStep u now ru).timeout = u.timeout ∧
    u.shutdown.timeout = u.timeout :=
  ⟨rfl, rfl, rfl, rfl, rfl, rfl, tcpStep_timeout s now a r, rfl,
    udpStep_timeout u now ru, rfl⟩

/-- Claim C8: for a payload decoding to a JSON object whose recognized fields,
when present, are numbers, the parsed steering equals the value of the
`steering` field (0.0 when absent) and likewise for throttle; prepending an
unrecognized field to the object does not change the parse result. -/
theorem c8_fields_default (fs : List (String × PyVal)) (now st th tm a b : ℚ)
    (h1 : dictGet fs "steering" = some (.num a) ∨
          (dictGet fs "steering" = none ∧ a = 0))
    (h2 : dictGet fs "throttle" = some (.num b) ∨
          (dictGet fs "throttle" = none ∧ b = 0)) :
    applyCmdVals (.dict fs) now st th tm = (a, b, now) ∧
    (∀ k w, k ≠ "steering" → k ≠ "throttle" →
      applyCmdVals (.dict ((k, w) :: fs)) now st th tm =
        applyCmdVals (.dict fs) now st th tm) := by
  constructor
  · have e1 : pyFloat (pyGet fs "steering" (.num 0)) = some a := by
      unfold pyGet
      rcases h1 with h | ⟨h, rfl⟩ <;> rw [h] <;> rfl
    have e2 : pyFloat (pyGet fs "throttle" (.num 0)) = some b := by
      unfold pyGet
      rcases h2 with h | ⟨h, rfl⟩ <;> rw [h] <;> rfl
    simp only [applyCmdVals, e1, e2]
  · intro k w hk1 hk2
    have g1 : pyGet ((k, w) :: fs) "steering" (.num 0) = pyGet fs "steering" (.num 0) := by
      unfold pyGet
      rw [dictGet_cons_ne k "steering" w fs hk1]
    have g2 : pyGet ((k, w) :: fs) "throttle" (.num 0) = pyGet fs "throttle" (.num 0) := by
      unfold pyGet
      rw [dictGet_cons_ne k "throttle" w fs hk2]
    simp only [applyCmdVals, g1, g2]

/-- Witness for C8: the concrete payload
`{"steering": 1/2, "throttle": 3/10}` parses to exactly those values with the
receipt time stamped, and `{"steering": 1/2}` defaults throttle to 0. -/
theorem c8_fields_default_witness :
    applyCmdVals goodCmd 5 9 9 9 = (1/2, 3/10, 5) ∧
    applyCmdVals (.dict [("steering", .num (1/2))]) 5 9 9 9 = (1/2, 0, 5) :=
  ⟨(c8_fields_default [("steering", .num (1/2)), ("throttle", .num (3/10))]
      5 9 9 9 (1/2) (3/10) (Or.inl rfl) (Or.inl rfl)).1,
   (c8_fields_default [("steering", .num (1/2))]
      5 9 9 9 (1/2) 0 (Or.inl rfl) (Or.inr ⟨rfl, rfl⟩)).1⟩

/-- Claim C9: neither worker loop terminates because of a malformed packet, a
receive timeout, a decode error or any other transport error: every iteration
outcome preserves the running flag, and while the flag is true the loop
consumes its whole event schedule (it equals a fold of the iteration step);
only a false running flag, which shutdown alone sets, stops it. -/
theorem c9_loop_survives_errors (s : RemoteController) (u : RemoteControllerUDP)
    (now : ℚ) (a : AcceptResult) (r : RecvResult) (ru : UDPRecvResult)
    (evs : List (ℚ × AcceptResult × RecvResult)) (evsU : List (ℚ × UDPRecvResult))
    (hs : s.running = true) (hu : u.running = true) :
    (tcpStep s now a r).running = true ∧
    (udpStep u now ru).running = true ∧
    tcpLoop s evs = evs.foldl (fun t e => tcpStep t e.1 e.2.1 e.2.2) s ∧
    (tcpLoop s evs).running = true ∧
    udpLoop u evsU = evsU.foldl (fun t e => udpStep t e.1 e.2) u ∧
    (udpLoop u evsU).running = true := by
  have h1 := tcpLoop_runs s evs hs
  have h2 := udpLoop_runs u evsU hu
  refine ⟨?_, ?_, h1.1, h1.2, h2.1, h2.2⟩
  · rw [tcpStep_running]; exact hs
  · rw [udpStep_running]; exact hu

/-- Witness for C9: concrete running receivers fed a schedule of a malformed
packet, a timeout and a transport error process all of it and keep running. -/
theorem c9_loop_survives_errors_witness :
    (tcpStep sampleConn 1 .timedOut (.data .malformed)).running = true ∧
    (udpStep sampleUDP 1 (.data .malformed)).running = true ∧
    tcpLoop sampleConn [(1, .timedOut, .data .malformed), (2, .timedOut, .recvErr)] =
      [(1, .timedOut, .data .malformed), (2, .timedOut, .recvErr)].foldl
        (fun t e => tcpStep t e.1 e.2.1 e.2.2) sampleConn ∧
    (tcpLoop sampleConn
      [(1, .timedOut, .data .malformed), (2, .timedOut, .recvErr)]).running = true ∧
    udpLoop sampleUDP [(1, .data .malformed), (2, .recvErr)] =
      [(1, .data .malformed), (2, .recvErr)].foldl
        (fun t e => udpStep t e.1 e.2) sampleUDP ∧
    (udpLoop sampleUDP [(1, .data .malformed), (2, .recvErr)]).running = true :=
  c9_loop_survives_errors sampleConn sampleUDP 1 .timedOut (.data .malformed)
    (.data .malformed) [(1, .timedOut, .data .malformed), (2, .timedOut, .recvErr)]
    [(1, .data .malformed), (2, .recvErr)] rfl rfl

end RemoteCtl
